import Mathlib

/-!
Verification of the Smart-ATS CV pipeline (`src/main.py`, `src/schemas.py`).

The development shallowly embeds the pure decision logic of the pipeline:
the structural sanitizer `filter_null_values`, the text extractor's
extension dispatch, language detection fallback, social-link validation,
the response assembly of `analyze_and_rewrite_cv`, and the
`recommend_careers` endpoint.
-/

namespace SmartATS

/-- A JSON-like value, the nested structures `filter_null_values` operates on:
mappings, sequences and scalars (null, strings, numbers, booleans). -/
inductive Val where
  | vnull : Val
  | vstr : String → Val
  | vnum : Int → Val
  | vbool : Bool → Val
  | vdict : List (String × Val) → Val
  | vlist : List Val → Val

/-- The keep-test for mapping entries in `filter_null_values`:
`v is not None and v != "" and v != []`. -/
def keepInDict : Val → Bool
  | Val.vnull => false
  | Val.vstr s => s != ""
  | Val.vlist xs => !xs.isEmpty
  | _ => true

/-- The keep-test for sequence elements in `filter_null_values`:
`item is not None and item != "" and item != {}`. -/
def keepInList : Val → Bool
  | Val.vnull => false
  | Val.vstr s => s != ""
  | Val.vdict kvs => !kvs.isEmpty
  | _ => true

mutual

/-- `filter_null_values` from `src/main.py`: on a dict, keep the entries whose
(original) value passes `keepInDict` and recurse into the kept values;
on a list, keep the elements passing `keepInList` and recurse; scalars are
returned unchanged. -/
def filter_null_values : Val → Val
  | Val.vdict kvs => Val.vdict (filterPairs kvs)
  | Val.vlist xs => Val.vlist (filterElems xs)
  | v => v

/-- The dict-comprehension of `filter_null_values` over the entry list. -/
def filterPairs : List (String × Val) → List (String × Val)
  | [] => []
  | (k, v) :: rest =>
    if keepInDict v then (k, filter_null_values v) :: filterPairs rest
    else filterPairs rest

/-- The list-comprehension of `filter_null_values` over the element list. -/
def filterElems : List Val → List Val
  | [] => []
  | v :: rest =>
    if keepInList v then filter_null_values v :: filterElems rest
    else filterElems rest

end

/-- Is the value a sequence? -/
def isSeq : Val → Bool
  | Val.vlist _ => true
  | _ => false

/-- Is the value a mapping? -/
def isMap : Val → Bool
  | Val.vdict _ => true
  | _ => false

mutual

/-- A nested structure is unmixed when no sequence occurs as a mapping value
and no mapping occurs as a sequence element, at any depth. -/
def unmixed : Val → Bool
  | Val.vdict kvs => unmixedPairs kvs
  | Val.vlist xs => unmixedElems xs
  | _ => true

/-- `unmixed` over the entries of a mapping. -/
def unmixedPairs : List (String × Val) → Bool
  | [] => true
  | (_, v) :: rest => !isSeq v && unmixed v && unmixedPairs rest

/-- `unmixed` over the elements of a sequence. -/
def unmixedElems : List Val → Bool
  | [] => true
  | v :: rest => !isMap v && unmixed v && unmixedElems rest

end

/-- Is the value null or the empty string? -/
def isNullOrEmptyStr : Val → Bool
  | Val.vnull => true
  | Val.vstr s => s == ""
  | _ => false

mutual

/-- No null and no empty string occurs inside any container of the value. -/
def noBadInside : Val → Bool
  | Val.vdict kvs => noBadPairs kvs
  | Val.vlist xs => noBadElems xs
  | _ => true

/-- `noBadInside` over the entries of a mapping. -/
def noBadPairs : List (String × Val) → Bool
  | [] => true
  | (_, v) :: rest => !isNullOrEmptyStr v && noBadInside v && noBadPairs rest

/-- `noBadInside` over the elements of a sequence. -/
def noBadElems : List Val → Bool
  | [] => true
  | v :: rest => !isNullOrEmptyStr v && noBadInside v && noBadElems rest

end

mutual

/-- Some value at some depth (the value itself included) is null, the empty
string, or the empty sequence. -/
def hasBadValue : Val → Bool
  | Val.vnull => true
  | Val.vstr s => s == ""
  | Val.vnum _ => false
  | Val.vbool _ => false
  | Val.vdict kvs => hasBadPairs kvs
  | Val.vlist xs => xs.isEmpty || hasBadElems xs

/-- `hasBadValue` over the entries of a mapping. -/
def hasBadPairs : List (String × Val) → Bool
  | [] => false
  | (_, v) :: rest => hasBadValue v || hasBadPairs rest

/-- `hasBadValue` over the elements of a sequence. -/
def hasBadElems : List Val → Bool
  | [] => false
  | v :: rest => hasBadValue v || hasBadElems rest

end


/-- Python `str.split('.')` modelled on the character list of the string. -/
def splitDotAux : List Char → List Char → List String
  | [], acc => [String.mk acc.reverse]
  | c :: rest, acc =>
    if c = '.' then String.mk acc.reverse :: splitDotAux rest []
    else splitDotAux rest (c :: acc)

/-- Python `filename.split('.')`. -/
def pySplitDot (s : String) : List String := splitDotAux s.data []

/-- Python `str.lower()` (ASCII case folding, as used on extensions/URLs). -/
def pyLower (s : String) : String := String.mk (s.data.map Char.toLower)

/-- Is the character stripped by Python `str.strip()`? -/
def isPyWs (c : Char) : Bool := c == ' ' || c == '\t' || c == '\n' || c == '\r'

/-- Python `str.strip()`. -/
def pyStrip (s : String) : String :=
  String.mk (((s.data.dropWhile isPyWs).reverse.dropWhile isPyWs).reverse)

/-- Substring test on character lists. -/
def containsSub (hay pat : List Char) : Bool :=
  if List.isPrefixOf pat hay then true
  else
    match hay with
    | [] => false
    | _ :: rest => containsSub rest pat

/-- Python `pat in s` for strings. -/
def strContains (s pat : String) : Bool := containsSub s.data pat.data

/-- An HTTP error as raised by `HTTPException(status_code=..., detail=...)`. -/
structure HTTPError where
  status : Nat
  detail : String
deriving DecidableEq

/-- The outcome of a request handler: a value, or an `HTTPException`. -/
inductive PyResult (α : Type) where
  | ok : α → PyResult α
  | error : HTTPError → PyResult α
deriving DecidableEq

/-- `uploaded_file.filename.split('.')[-1].lower()`. -/
def getExtension (filename : String) : String :=
  pyLower ((pySplitDot filename).getLastD "")

/-- `extract_text_from_file` from `src/main.py`.  The binary container parsing
is abstracted by the page texts (PyMuPDF) and the paragraph texts
(python-docx) that the external libraries would produce; the function
dispatches on the filename extension exactly as the source does. -/
def extract_text_from_file (filename : String) (pages : List String)
    (paragraphs : List String) : PyResult String :=
  let ext := getExtension filename
  if ext = "pdf" then
    PyResult.ok (pyStrip (String.join pages))
  else if ext = "docx" ∨ ext = "doc" then
    PyResult.ok (pyStrip (String.intercalate "\n" paragraphs))
  else
    PyResult.error ⟨400, "Unsupported file format: " ++ ext⟩

/-- The outcome of the external `langdetect.detect` call: either it raises
`LangDetectException` or it returns a language code. -/
inductive DetectOutcome where
  | raises : DetectOutcome
  | returns : String → DetectOutcome

/-- `detect_language` from `src/main.py`: return the detected code when it is
one of the supported codes, default to English otherwise or on a
`LangDetectException`. -/
def detect_language : DetectOutcome → String
  | DetectOutcome.raises => "en"
  | DetectOutcome.returns lang =>
    if lang = "en" ∨ lang = "de" ∨ lang = "ar" then lang else "en"



/-- One social-link form field of `analyze_and_rewrite_cv`: its platform key,
the supplied URL, the validity test applied to the lowercased URL, and the
error message raised on failure. -/
structure LinkSpec where
  platform : String
  url : String
  valid : String → Bool
  errMsg : String

/-- Is the field supplied, i.e. truthy and non-blank
(`if url and url.strip():`)? -/
def isSupplied (l : LinkSpec) : Bool := l.url != "" && pyStrip l.url != ""

/-- Does the supplied field fail its validity test? -/
def linkFails (l : LinkSpec) : Bool := isSupplied l && !(l.valid (pyLower l.url))

/-- Sequentially validate the supplied links as the source's seven `if`
blocks do: a blank field is skipped, a non-blank field failing its test
raises HTTP 400 with the platform's message, and a passing field contributes
`(platform, url.strip())` to the link map, in order. -/
def processLinks : List LinkSpec → PyResult (List (String × String))
  | [] => PyResult.ok []
  | l :: rest =>
    if isSupplied l then
      if l.valid (pyLower l.url) then
        match processLinks rest with
        | PyResult.ok m => PyResult.ok ((l.platform, pyStrip l.url) :: m)
        | PyResult.error e => PyResult.error e
      else PyResult.error ⟨400, l.errMsg⟩
    else processLinks rest

/-- The link map produced when no supplied field fails its test. -/
def okMap : List LinkSpec → List (String × String)
  | [] => []
  | l :: rest =>
    if isSupplied l then (l.platform, pyStrip l.url) :: okMap rest else okMap rest

/-- The seven social-link checks of `analyze_and_rewrite_cv`, in source
order, with the source's domain substrings and error messages. -/
def socialLinkSpecs (github linkedin kaggle portfolio stackoverflow medium
    twitter : String) : List LinkSpec :=
  [⟨"github", github, fun u => strContains u "github.com",
      "Invalid GitHub URL. Must contain 'github.com'"⟩,
   ⟨"linkedin", linkedin, fun u => strContains u "linkedin.com",
      "Invalid LinkedIn URL. Must contain 'linkedin.com'"⟩,
   ⟨"kaggle", kaggle, fun u => strContains u "kaggle.com",
      "Invalid Kaggle URL. Must contain 'kaggle.com'"⟩,
   ⟨"portfolio", portfolio, fun u => strContains u "http" || strContains u ".com" ||
      strContains u ".io" || strContains u ".dev" || strContains u ".net" ||
      strContains u ".org",
      "Invalid Portfolio URL. Must be a valid URL"⟩,
   ⟨"stackoverflow", stackoverflow, fun u => strContains u "stackoverflow.com",
      "Invalid Stack Overflow URL. Must contain 'stackoverflow.com'"⟩,
   ⟨"medium", medium, fun u => strContains u "medium.com",
      "Invalid Medium URL. Must contain 'medium.com'"⟩,
   ⟨"twitter", twitter, fun u => strContains u "twitter.com" || strContains u "x.com",
      "Invalid Twitter URL. Must contain 'twitter.com' or 'x.com'"⟩]

/-- The social-link validation of `analyze_and_rewrite_cv` (lines 511-546):
builds `social_links_data` or raises the first failing platform's error. -/
def validate_social_links (github linkedin kaggle portfolio stackoverflow
    medium twitter : String) : PyResult (List (String × String)) :=
  processLinks
    (socialLinkSpecs github linkedin kaggle portfolio stackoverflow medium twitter)


/-- The quality transform's JSON output, every expected field possibly
absent. -/
structure QualityData where
  overall_score : Option Int
  strengths : Option (List String)
  weaknesses : Option (List String)
  suggestions : Option (List String)

/-- One `{item, status, details}` check record of the ATS transform's output,
every field possibly absent. -/
structure ATSCheckData where
  item : Option String
  status : Option String
  details : Option String

/-- The ATS transform's JSON output, every expected field possibly absent. -/
structure ATSData where
  overall_score : Option Int
  passed_checks : Option (List ATSCheckData)
  failed_checks : Option (List ATSCheckData)
  critical_issues : Option (List String)
  recommendations : Option (List String)

/-- The career-identifier transform's JSON output, every expected field
possibly absent. -/
structure CareerData where
  recommended_career : Option String
  confidence : Option Int
  reasoning : Option String
  alternative_careers : Option (List String)

/-- The rewrite transform's JSON output, every expected field possibly
absent; the experience entries are passed through opaquely. -/
structure RewrittenData where
  rewritten_summary : Option String
  rewritten_experience : Option (List Val)
  estimated_new_ats_score : Option Int

/-- The parsed CV dictionary as read by the response assembly: scalar fields
may be absent or null (read with `or ""`), list fields may be absent (read
with `.get(key, [])`). -/
structure ParsedData where
  name : Option String
  email : Option String
  phone : Option String
  address : Option String
  skills : Option (List String)
  education : Option (List Val)
  projects : Option (List Val)
  languages : Option (List Val)
  hobbies : Option (List String)

/-- `lang_names.get(code, code)` of the improvements list. -/
def lang_display (c : String) : String :=
  if c = "en" then "English" else if c = "de" then "German"
  else if c = "ar" then "Arabic" else c

/-- `list(set(original + suggested))`: the deduplicated union of the parsed
skills and the suggested skills (Python set order is unspecified; the
embedding picks one enumeration). -/
def combined_skills (original suggested : List String) : List String :=
  (original ++ suggested).dedup

/-- The `final_cv` block of the response. -/
structure NewCV where
  name : String
  email : String
  phone : String
  address : String
  summary : String
  skills : List String
  experience : List Val
  education : List Val
  projects : List Val
  languages : List Val
  hobbies : List String
  social_links : List (String × String)

/-- The `career_recommendation` block of the response. -/
structure CareerIdent where
  recommended_career : String
  confidence : Int
  reasoning : String
  alternative_careers : List String

/-- The `improvements_summary` block of the response. -/
structure ImprovementsSummary where
  ats_score_before : Int
  ats_score_after : Int
  improvements_made : List String
  translation_applied : Bool
  input_language : String
  output_language : String

/-- The `improvement_notes` block of the response. -/
structure ImprovementNotes where
  original_ats_score : Int
  improved_ats_score : Int
  target_ats_score : Int
  gap_to_target : Int
  missing_for_90_percent : List String
  recommendation : String
  examples : List String

/-- The `quality_report` block of the response. -/
structure QualityReport where
  overall_score : Int
  strengths : List String
  weaknesses : List String
  suggestions : List String

/-- One `{item, status, details}` record of the `ats_compliance` block. -/
structure ATSCheckItem where
  item : String
  status : String
  details : String

/-- The `ats_compliance` block of the response. -/
structure ATSComplianceReport where
  overall_score : Int
  passed_checks : List ATSCheckItem
  failed_checks : List ATSCheckItem
  critical_issues : List String
  recommendations : List String

/-- The complete response of `analyze_and_rewrite_cv`. -/
structure CompleteAnalysisResponse where
  final_cv : NewCV
  career_recommendation : CareerIdent
  improvements_summary : ImprovementsSummary
  improvement_notes : ImprovementNotes
  quality_report : QualityReport
  ats_compliance : ATSComplianceReport

/-- The `missing_for_90_percent` advisory strings of the source. -/
def missingFor90 : List String :=
  ["Quantifiable metrics (e.g., 'Improved efficiency by 30%', 'Managed team of 5 engineers')",
   "Specific numbers (e.g., 'Served 10,000+ users daily', 'Generated $2M in revenue')",
   "Measurable achievements (e.g., 'Reduced costs by 25%', 'Increased customer satisfaction by 40%')",
   "Project scope details (e.g., 'Led 3 major projects over 6 months', 'Delivered to 50+ clients')"]

/-- The sub-90 recommendation string of the source. -/
def sub90Recommendation : String :=
  "To reach 90% ATS score, please add specific quantifiable metrics to your achievements. Without concrete numbers, we can improve your CV to ~75-80% ATS compliance through better language, structure, and keywords. For 85-90%, you'll need to provide measurable results from your work experience."

/-- The sub-90 example strings of the source. -/
def sub90Examples : List String :=
  ["Instead of: 'Worked on projects' → Use: 'Led 5 cross-functional projects serving 50,000+ users'",
   "Instead of: 'Improved processes' → Use: 'Optimized workflow processes, reducing processing time by 35%'",
   "Instead of: 'Managed team' → Use: 'Managed team of 8 engineers, delivering 12 features in 6 months'"]

/-- The `improvements_made` narrative list (lines 601-613). -/
def improvementsMadeList (input_language output_language : String)
    (suggested_skills : Option (List String)) (rewritten_data : RewrittenData)
    (original_ats improved_ats : Int) : List String :=
  (if input_language ≠ output_language then
    ["Translated CV from " ++ lang_display input_language ++ " to " ++
      lang_display output_language]
  else []) ++
  ["Improved professional summary with strong action verbs and context",
   "Enhanced " ++ toString (rewritten_data.rewritten_experience.getD []).length ++
     " experience descriptions with impact and scope"] ++
  (match suggested_skills with
   | some sk =>
     if 0 < sk.length then
       ["Added " ++ toString sk.length ++ " suggested skills based on experience"]
     else []
   | none => []) ++
  ["Improved ATS compliance from " ++ toString original_ats ++ "% to " ++
     toString improved_ats ++ "% (+" ++ toString (improved_ats - original_ats) ++ "%)",
   "Applied industry-specific keywords and professional terminology"]

/-- The response assembly of `analyze_and_rewrite_cv` (lines 595-692): every
read of a transform output goes through a `.get`-with-default, mirrored here
by `Option.getD`.  `suggested_skills` is `none` when the transform's output
is not a list (`isinstance(suggested_skills, list)`). -/
def analyze_response (input_language output_language : String)
    (parsed : ParsedData) (social_links_data : List (String × String))
    (quality_data : QualityData) (ats_data : ATSData)
    (suggested_skills : Option (List String)) (career_data : CareerData)
    (rewritten_data : RewrittenData) : CompleteAnalysisResponse :=
  let original_ats := ats_data.overall_score.getD 0
  let improved_ats := rewritten_data.estimated_new_ats_score.getD (original_ats + 10)
  let combined := combined_skills (parsed.skills.getD []) (suggested_skills.getD [])
  { final_cv :=
      { name := parsed.name.getD ""
        email := parsed.email.getD ""
        phone := parsed.phone.getD ""
        address := parsed.address.getD ""
        summary := rewritten_data.rewritten_summary.getD ""
        skills := combined
        experience := rewritten_data.rewritten_experience.getD []
        education := parsed.education.getD []
        projects := parsed.projects.getD []
        languages := parsed.languages.getD []
        hobbies := parsed.hobbies.getD []
        social_links := social_links_data }
    career_recommendation :=
      { recommended_career := career_data.recommended_career.getD "Unknown"
        confidence := career_data.confidence.getD 0
        reasoning := career_data.reasoning.getD ""
        alternative_careers := career_data.alternative_careers.getD [] }
    improvements_summary :=
      { ats_score_before := original_ats
        ats_score_after := improved_ats
        improvements_made :=
          improvementsMadeList input_language output_language suggested_skills
            rewritten_data original_ats improved_ats
        translation_applied := input_language != output_language
        input_language := input_language
        output_language := output_language }
    improvement_notes :=
      { original_ats_score := ats_data.overall_score.getD 0
        improved_ats_score :=
          rewritten_data.estimated_new_ats_score.getD (ats_data.overall_score.getD 0 + 10)
        target_ats_score := 90
        gap_to_target :=
          max 0 (90 - rewritten_data.estimated_new_ats_score.getD
            (ats_data.overall_score.getD 0 + 10))
        missing_for_90_percent :=
          if rewritten_data.estimated_new_ats_score.getD
              (ats_data.overall_score.getD 0 + 10) < 90 then missingFor90 else []
        recommendation :=
          if rewritten_data.estimated_new_ats_score.getD
              (ats_data.overall_score.getD 0 + 10) < 90 then sub90Recommendation
          else "Excellent! Your CV meets high ATS standards."
        examples :=
          if rewritten_data.estimated_new_ats_score.getD
              (ats_data.overall_score.getD 0 + 10) < 90 then sub90Examples else [] }
    quality_report :=
      { overall_score := quality_data.overall_score.getD 0
        strengths := quality_data.strengths.getD []
        weaknesses := quality_data.weaknesses.getD []
        suggestions := quality_data.suggestions.getD [] }
    ats_compliance :=
      { overall_score := ats_data.overall_score.getD 0
        passed_checks := (ats_data.passed_checks.getD []).map fun check =>
          { item := check.item.getD "", status := check.status.getD "",
            details := check.details.getD "" }
        failed_checks := (ats_data.failed_checks.getD []).map fun check =>
          { item := check.item.getD "", status := check.status.getD "",
            details := check.details.getD "" }
        critical_issues := ats_data.critical_issues.getD []
        recommendations := ats_data.recommendations.getD [] } }


/-- A job listing of the mock recommendation data (`schemas.JobListing`). -/
structure JobListing where
  id : String
  title : String
  company : String
  location : String
  job_type : String
  experience_level : String
  description : String
  required_skills : List String
  salary_min : Int
  salary_max : Int
  salary_currency : String
  source : String
  posted_at : String
  url : String
deriving DecidableEq

/-- One improvement suggestion of a job match
(`schemas.ImprovementSuggestion`). -/
structure ImprovementSuggestion where
  category : String
  suggestion : String
deriving DecidableEq

/-- One scored job-match record (`schemas.CareerRecommendation`). -/
structure JobMatch where
  job : JobListing
  overall_match_score : Int
  skills_match_score : Int
  experience_match_score : Int
  education_match_score : Int
  language_match_score : Int
  matched_skills : List String
  missing_skills : List String
  improvement_suggestions : List ImprovementSuggestion
  estimated_preparation_time : String
deriving DecidableEq

/-- The response of `/recommend-careers/`
(`schemas.CareerRecommendationResponse`). -/
structure CareerRecommendationResponse where
  tier : String
  location : String
  total_jobs_searched : Nat
  recommendations : List JobMatch
  message : String
deriving DecidableEq

/-- Python's `xs[:limit]` for a possibly negative `limit`. -/
def pySlice {α : Type} (xs : List α) (limit : Int) : List α :=
  if 0 ≤ limit then xs.take limit.toNat
  else xs.take (xs.length - (-limit).toNat)

/-- The `mock_jobs` list of `recommend_careers`; the generated UUID and
timestamp are abstracted as parameters. -/
def mock_jobs (jobId now tier : String) : List JobListing :=
  [{ id := jobId, title := "Data Scientist", company := "Tech Company GmbH",
     location := "Berlin, Germany", job_type := "Full-time",
     experience_level := "Mid-level",
     description := "We are looking for a Data Scientist...",
     required_skills := ["Python", "Machine Learning", "SQL"],
     salary_min := 60000, salary_max := 80000, salary_currency := "EUR",
     source := if tier = "free" then "BA-API" else "LinkedIn",
     posted_at := now, url := "https://example.com/job/123" }]

/-- The `mock_recommendations` list of `recommend_careers`, built over
`mock_jobs[0]`. -/
def mock_recommendations (jobId now tier : String) : List JobMatch :=
  [{ job := ((mock_jobs jobId now tier).headD
       { id := jobId, title := "", company := "", location := "", job_type := "",
         experience_level := "", description := "", required_skills := [],
         salary_min := 0, salary_max := 0, salary_currency := "", source := "",
         posted_at := "", url := "" }),
     overall_match_score := 85, skills_match_score := 90,
     experience_match_score := 80, education_match_score := 85,
     language_match_score := 95,
     matched_skills := ["Python", "Machine Learning"],
     missing_skills := ["Deep Learning", "TensorFlow"],
     improvement_suggestions :=
       [{ category := "skills",
          suggestion := "Learn Deep Learning frameworks like TensorFlow or PyTorch" },
        { category := "experience",
          suggestion := "Work on more ML projects to gain hands-on experience" }],
     estimated_preparation_time := "2-3 months" }]

/-- `recommend_careers` from `src/main.py`: rejects invalid tiers with
HTTP 400, otherwise returns the mock data truncated to `limit`, with a
message stating the number of returned recommendations and the tier. -/
def recommend_careers (cv_data : Val) (tier location : String) (limit : Int)
    (jobId now : String) : PyResult CareerRecommendationResponse :=
  if tier ≠ "free" ∧ tier ≠ "premium" then
    PyResult.error ⟨400, "Invalid tier. Must be 'free' or 'premium'"⟩
  else
    let jobs := mock_jobs jobId now tier
    let shown := pySlice (mock_recommendations jobId now tier) limit
    PyResult.ok
      { tier := tier, location := location,
        total_jobs_searched := jobs.length,
        recommendations := shown,
        message := "Showing top " ++ toString shown.length ++
          " recommendations from " ++ tier ++ " tier" }


theorem keepInDict_filter (v : Val) (hs : isSeq v = false) (h : keepInDict v = true) :
    keepInDict (filter_null_values v) = true := by
  cases v <;> simp_all [isSeq, keepInDict, filter_null_values]

theorem keepInList_filter (v : Val) (hm : isMap v = false) (h : keepInList v = true) :
    keepInList (filter_null_values v) = true := by
  cases v <;> simp_all [isMap, keepInList, filter_null_values]

mutual

theorem filter2_val : (v : Val) → unmixed v = true →
    filter_null_values (filter_null_values v) = filter_null_values v
  | Val.vnull, _ => by simp [filter_null_values]
  | Val.vstr _, _ => by simp [filter_null_values]
  | Val.vnum _, _ => by simp [filter_null_values]
  | Val.vbool _, _ => by simp [filter_null_values]
  | Val.vdict kvs, h => by
      simp only [filter_null_values]
      exact congrArg Val.vdict (filter2_pairs kvs (by simpa [unmixed] using h))
  | Val.vlist xs, h => by
      simp only [filter_null_values]
      exact congrArg Val.vlist (filter2_elems xs (by simpa [unmixed] using h))

theorem filter2_pairs : (kvs : List (String × Val)) → unmixedPairs kvs = true →
    filterPairs (filterPairs kvs) = filterPairs kvs
  | [], _ => by simp [filterPairs]
  | (k, v) :: rest, h => by
      have h1 : (isSeq v = false ∧ unmixed v = true) ∧ unmixedPairs rest = true := by
        simpa [unmixedPairs] using h
      by_cases hk : keepInDict v = true
      · have hk2 : keepInDict (filter_null_values v) = true := keepInDict_filter v h1.1.1 hk
        simp only [filterPairs, hk, if_true, hk2]
        rw [filter2_val v h1.1.2, filter2_pairs rest h1.2]
      · simp only [filterPairs, hk, if_false]
        exact filter2_pairs rest h1.2

theorem filter2_elems : (xs : List Val) → unmixedElems xs = true →
    filterElems (filterElems xs) = filterElems xs
  | [], _ => by simp [filterElems]
  | v :: rest, h => by
      have h1 : (isMap v = false ∧ unmixed v = true) ∧ unmixedElems rest = true := by
        simpa [unmixedElems] using h
      by_cases hk : keepInList v = true
      · have hk2 : keepInList (filter_null_values v) = true := keepInList_filter v h1.1.1 hk
        simp only [filterElems, hk, if_true, hk2]
        rw [filter2_val v h1.1.2, filter2_elems rest h1.2]
      · simp only [filterElems, hk, if_false]
        exact filter2_elems rest h1.2

end

theorem keepInDict_not_bad (v : Val) (h : keepInDict v = true) :
    isNullOrEmptyStr (filter_null_values v) = false := by
  cases v <;> simp_all [keepInDict, filter_null_values, isNullOrEmptyStr]

theorem keepInList_not_bad (v : Val) (h : keepInList v = true) :
    isNullOrEmptyStr (filter_null_values v) = false := by
  cases v <;> simp_all [keepInList, filter_null_values, isNullOrEmptyStr]

mutual

theorem noBad_filter_val : (v : Val) → noBadInside (filter_null_values v) = true
  | Val.vnull => by simp [filter_null_values, noBadInside]
  | Val.vstr _ => by simp [filter_null_values, noBadInside]
  | Val.vnum _ => by simp [filter_null_values, noBadInside]
  | Val.vbool _ => by simp [filter_null_values, noBadInside]
  | Val.vdict kvs => by
      simp only [filter_null_values, noBadInside]
      exact noBad_filter_pairs kvs
  | Val.vlist xs => by
      simp only [filter_null_values, noBadInside]
      exact noBad_filter_elems xs

theorem noBad_filter_pairs : (kvs : List (String × Val)) → noBadPairs (filterPairs kvs) = true
  | [] => by simp [filterPairs, noBadPairs]
  | (k, v) :: rest => by
      by_cases hk : keepInDict v = true
      · simp only [filterPairs, hk, if_true, noBadPairs]
        simp [keepInDict_not_bad v hk, noBad_filter_val v, noBad_filter_pairs rest]
      · simp only [filterPairs, hk, if_false]
        exact noBad_filter_pairs rest

theorem noBad_filter_elems : (xs : List Val) → noBadElems (filterElems xs) = true
  | [] => by simp [filterElems, noBadElems]
  | v :: rest => by
      by_cases hk : keepInList v = true
      · simp only [filterElems, hk, if_true, noBadElems]
        simp [keepInList_not_bad v hk, noBad_filter_val v, noBad_filter_elems rest]
      · simp only [filterElems, hk, if_false]
        exact noBad_filter_elems rest

end

/-- C1 counterexample: the sanitizer is not idempotent as claimed.  For the
nested structure `[{"a": null}]` one application yields `[{}]` while a second
application yields `[]`. -/
theorem filter_null_values_not_idempotent :
    filter_null_values (filter_null_values (Val.vlist [Val.vdict [("a", Val.vnull)]])) ≠
      filter_null_values (Val.vlist [Val.vdict [("a", Val.vnull)]]) := by
  simp [filter_null_values, filterPairs, filterElems, keepInDict, keepInList]

/-- C1 (amended): the structural sanitizer is idempotent on every unmixed
nested structure, i.e. one in which no sequence occurs as a mapping value
and no mapping occurs as a sequence element at any depth. -/
theorem filter_null_values_idempotent_of_unmixed (v : Val) (h : unmixed v = true) :
    filter_null_values (filter_null_values v) = filter_null_values v :=
  filter2_val v h

/-- C1 witness: the amended idempotence applied to the concrete unmixed
structure `{"a": null, "b": {"c": "x", "d": ""}}`. -/
theorem filter_null_values_idempotent_witness :
    unmixed (Val.vdict [("a", Val.vnull),
      ("b", Val.vdict [("c", Val.vstr "x"), ("d", Val.vstr "")])]) = true ∧
    filter_null_values (filter_null_values (Val.vdict [("a", Val.vnull),
      ("b", Val.vdict [("c", Val.vstr "x"), ("d", Val.vstr "")])])) =
      filter_null_values (Val.vdict [("a", Val.vnull),
        ("b", Val.vdict [("c", Val.vstr "x"), ("d", Val.vstr "")])]) :=
  ⟨by simp [unmixed, unmixedPairs, unmixedElems, isSeq, isMap],
   filter_null_values_idempotent_of_unmixed _
     (by simp [unmixed, unmixedPairs, unmixedElems, isSeq, isMap])⟩

/-- C2 counterexample: an empty sequence can survive at depth in the
sanitizer's output.  Sanitizing `{"a": [""]}` yields `{"a": []}`, which
contains an empty sequence as a mapping value. -/
theorem filter_null_values_empty_seq_survives :
    hasBadValue (filter_null_values (Val.vdict [("a", Val.vlist [Val.vstr ""])])) = true := by
  simp [filter_null_values, filterPairs, filterElems, keepInDict, keepInList,
    hasBadValue, hasBadPairs, hasBadElems]

/-- C2 (amended): the sanitizer's output never contains a null or an empty
string inside any mapping or sequence, at any depth. -/
theorem filter_null_values_no_null_no_empty_string (v : Val) :
    noBadInside (filter_null_values v) = true :=
  noBad_filter_val v


/-- C4: files whose extension is not the page-oriented format (`pdf`) nor one
of the paragraph-oriented format's extensions (`docx`, `doc`) are rejected
with a 400 error naming the extension; `resume.txt` is rejected naming `txt`;
and text is only ever produced for the supported extensions. -/
theorem extract_text_unsupported_extension (filename : String)
    (pages paragraphs : List String) :
    (getExtension filename ≠ "pdf" → getExtension filename ≠ "docx" →
      getExtension filename ≠ "doc" →
      extract_text_from_file filename pages paragraphs =
        PyResult.error ⟨400, "Unsupported file format: " ++ getExtension filename⟩) ∧
    (∀ t, extract_text_from_file filename pages paragraphs = PyResult.ok t →
      getExtension filename = "pdf" ∨ getExtension filename = "docx" ∨
        getExtension filename = "doc") ∧
    extract_text_from_file "resume.txt" pages paragraphs =
      PyResult.error ⟨400, "Unsupported file format: txt"⟩ := by
  refine ⟨fun h1 h2 h3 => ?_, fun t h => ?_, ?_⟩
  · simp [extract_text_from_file, h1, h2, h3]
  · by_cases h1 : getExtension filename = "pdf"
    · exact Or.inl h1
    · by_cases h2 : getExtension filename = "docx"
      · exact Or.inr (Or.inl h2)
      · by_cases h3 : getExtension filename = "doc"
        · exact Or.inr (Or.inr h3)
        · simp [extract_text_from_file, h1, h2, h3] at h
  · have hx : getExtension "resume.txt" = "txt" := by decide
    simp [extract_text_from_file, hx]

/-- C4 witness: the rejection branch evaluated on the concrete file
`resume.txt`. -/
theorem extract_text_unsupported_extension_witness :
    extract_text_from_file "resume.txt" [] [] =
      PyResult.error ⟨400, "Unsupported file format: " ++ getExtension "resume.txt"⟩ :=
  (extract_text_unsupported_extension "resume.txt" [] []).1
    (by decide) (by decide) (by decide)

/-- C6: language identification is total over the classifier's outcomes —
the result is always one of the three supported codes; an internal classifier
failure yields the default English, and so does any unsupported code. -/
theorem detect_language_total (o : DetectOutcome) :
    (detect_language o = "en" ∨ detect_language o = "de" ∨ detect_language o = "ar") ∧
    detect_language DetectOutcome.raises = "en" ∧
    (∀ c, c ≠ "en" → c ≠ "de" → c ≠ "ar" →
      detect_language (DetectOutcome.returns c) = "en") := by
  refine ⟨?_, rfl, fun c h1 h2 h3 => by simp [detect_language, h1, h2, h3]⟩
  cases o with
  | raises => exact Or.inl rfl
  | returns c =>
    by_cases h1 : c = "en"
    · simp [detect_language, h1]
    · by_cases h2 : c = "de"
      · simp [detect_language, h1, h2]
      · by_cases h3 : c = "ar"
        · simp [detect_language, h1, h2, h3]
        · simp [detect_language, h1, h2, h3]

/-- C6 witness: the classifier returning the unsupported code `fr` falls back
to the default English. -/
theorem detect_language_total_witness :
    detect_language (DetectOutcome.returns "fr") = "en" :=
  (detect_language_total (DetectOutcome.returns "fr")).2.2 "fr"
    (by decide) (by decide) (by decide)



/-- C10: for a valid tier the recommend-careers operation succeeds,
`total_jobs_searched` is exactly 1, the recommendation list has exactly one
entry when the limit is at least 1 and is empty when the limit is 0 or
negative, and the message states the number of returned recommendations and
the tier. -/
theorem recommend_careers_shape (cv_data : Val) (tier location : String)
    (limit : Int) (jobId now : String) (h : tier = "free" ∨ tier = "premium") :
    recommend_careers cv_data tier location limit jobId now =
      PyResult.ok
        { tier := tier
          location := location
          total_jobs_searched := 1
          recommendations := pySlice (mock_recommendations jobId now tier) limit
          message := "Showing top " ++
            toString (pySlice (mock_recommendations jobId now tier) limit).length ++
            " recommendations from " ++ tier ++ " tier" } ∧
    (1 ≤ limit → (pySlice (mock_recommendations jobId now tier) limit).length = 1) ∧
    (limit ≤ 0 → pySlice (mock_recommendations jobId now tier) limit = []) := by
  have htier : ¬(tier ≠ "free" ∧ tier ≠ "premium") := by
    rcases h with h | h <;> simp [h]
  have hlen : (mock_recommendations jobId now tier).length = 1 := by
    simp [mock_recommendations]
  refine ⟨?_, fun hl => ?_, fun hl => ?_⟩
  · simp [recommend_careers, htier, mock_jobs]
  · have h1 : (1:Nat) ≤ limit.toNat := by omega
    rw [pySlice, if_pos (by omega : (0:Int) ≤ limit)]
    simp [List.length_take, hlen]
    omega
  · by_cases h0 : (0:Int) ≤ limit
    · have : limit = 0 := le_antisymm hl h0
      subst this
      simp [pySlice]
    · rw [pySlice, if_neg h0]
      have : (mock_recommendations jobId now tier).length - (-limit).toNat = 0 := by
        omega
      simp [this]

/-- C10 witness: the operation evaluated at tier `free` with limit 10. -/
theorem recommend_careers_shape_witness :
    recommend_careers Val.vnull "free" "Germany" 10 "job-1" "t0" =
      PyResult.ok
        { tier := "free"
          location := "Germany"
          total_jobs_searched := 1
          recommendations := pySlice (mock_recommendations "job-1" "t0" "free") 10
          message := "Showing top " ++
            toString (pySlice (mock_recommendations "job-1" "t0" "free") 10).length ++
            " recommendations from " ++ "free" ++ " tier" } ∧
    (pySlice (mock_recommendations "job-1" "t0" "free") 10).length = 1 :=
  ⟨(recommend_careers_shape Val.vnull "free" "Germany" 10 "job-1" "t0"
      (Or.inl rfl)).1,
   (recommend_careers_shape Val.vnull "free" "Germany" 10 "job-1" "t0"
      (Or.inl rfl)).2.1 (by norm_num)⟩



/-- C9: the two independently computed score blocks of the response agree:
`improvement_notes.original_ats_score` equals
`improvements_summary.ats_score_before`, `improvement_notes.improved_ats_score`
equals `improvements_summary.ats_score_after`, and
`improvement_notes.gap_to_target` equals
`max 0 (90 - improvements_summary.ats_score_after)`. -/
theorem score_blocks_agree (il ol : String) (p : ParsedData)
    (sl : List (String × String)) (q : QualityData) (a : ATSData)
    (sk : Option (List String)) (c : CareerData) (r : RewrittenData) :
    (analyze_response il ol p sl q a sk c r).improvement_notes.original_ats_score =
      (analyze_response il ol p sl q a sk c r).improvements_summary.ats_score_before ∧
    (analyze_response il ol p sl q a sk c r).improvement_notes.improved_ats_score =
      (analyze_response il ol p sl q a sk c r).improvements_summary.ats_score_after ∧
    (analyze_response il ol p sl q a sk c r).improvement_notes.gap_to_target =
      max 0 (90 -
        (analyze_response il ol p sl q a sk c r).improvements_summary.ats_score_after) :=
  ⟨rfl, rfl, rfl⟩

/-- C5: `ats_score_after` is the rewrite stage's estimated score when present
and `ats_score_before + 10` when absent; `gap_to_target` is
`max 0 (90 - ats_score_after)` and hence never negative. -/
theorem ats_after_and_gap (il ol : String) (p : ParsedData)
    (sl : List (String × String)) (q : QualityData) (a : ATSData)
    (sk : Option (List String)) (c : CareerData) (r : RewrittenData) :
    (∀ s, r.estimated_new_ats_score = some s →
      (analyze_response il ol p sl q a sk c r).improvements_summary.ats_score_after = s) ∧
    (r.estimated_new_ats_score = none →
      (analyze_response il ol p sl q a sk c r).improvements_summary.ats_score_after =
        (analyze_response il ol p sl q a sk c r).improvements_summary.ats_score_before + 10) ∧
    (analyze_response il ol p sl q a sk c r).improvement_notes.gap_to_target =
      max 0 (90 -
        (analyze_response il ol p sl q a sk c r).improvements_summary.ats_score_after) ∧
    0 ≤ (analyze_response il ol p sl q a sk c r).improvement_notes.gap_to_target := by
  refine ⟨fun s hs => ?_, fun hn => ?_, rfl, le_max_left 0 _⟩
  · simp [analyze_response, hs]
  · simp [analyze_response, hn]

/-- C5 witness: an estimated score of 95 gives gap 0, an estimated score of
70 gives gap 20. -/
theorem ats_after_and_gap_witness :
    (analyze_response "en" "de" ⟨none, none, none, none, none, none, none, none, none⟩
      [] ⟨none, none, none, none⟩ ⟨none, none, none, none, none⟩ none
      ⟨none, none, none, none⟩
      ⟨none, none, some 95⟩).improvements_summary.ats_score_after = 95 ∧
    (analyze_response "en" "de" ⟨none, none, none, none, none, none, none, none, none⟩
      [] ⟨none, none, none, none⟩ ⟨none, none, none, none, none⟩ none
      ⟨none, none, none, none⟩
      ⟨none, none, some 95⟩).improvement_notes.gap_to_target = 0 ∧
    (analyze_response "en" "de" ⟨none, none, none, none, none, none, none, none, none⟩
      [] ⟨none, none, none, none⟩ ⟨none, none, none, none, none⟩ none
      ⟨none, none, none, none⟩
      ⟨none, none, some 70⟩).improvements_summary.ats_score_after = 70 ∧
    (analyze_response "en" "de" ⟨none, none, none, none, none, none, none, none, none⟩
      [] ⟨none, none, none, none⟩ ⟨none, none, none, none, none⟩ none
      ⟨none, none, none, none⟩
      ⟨none, none, some 70⟩).improvement_notes.gap_to_target = 20 := by
  have t95 := ats_after_and_gap "en" "de"
    ⟨none, none, none, none, none, none, none, none, none⟩ []
    ⟨none, none, none, none⟩ ⟨none, none, none, none, none⟩ none
    ⟨none, none, none, none⟩ ⟨none, none, some 95⟩
  have t70 := ats_after_and_gap "en" "de"
    ⟨none, none, none, none, none, none, none, none, none⟩ []
    ⟨none, none, none, none⟩ ⟨none, none, none, none, none⟩ none
    ⟨none, none, none, none⟩ ⟨none, none, some 70⟩
  have h95 := t95.1 95 rfl
  have g95 := t95.2.2.1
  have h70 := t70.1 70 rfl
  have g70 := t70.2.2.1
  rw [h95] at g95
  rw [h70] at g70
  norm_num at g95 g70
  exact ⟨h95, g95, h70, g70⟩

/-- C3 counterexample: an absent `recommended_career` string defaults to
`"Unknown"`, not to the empty string. -/
theorem career_default_not_empty_string :
    (analyze_response "en" "de" ⟨none, none, none, none, none, none, none, none, none⟩
      [] ⟨none, none, none, none⟩ ⟨none, none, none, none, none⟩ none
      ⟨none, none, none, none⟩
      ⟨none, none, none⟩).career_recommendation.recommended_career = "Unknown" ∧
    ("Unknown" : String) ≠ "" :=
  ⟨rfl, by decide⟩

/-- C3 (amended): every field read of the assembly uses a default-on-missing
convention, so the response is always produced in full; the defaults are 0
for absent numeric scores, `[]` for absent lists and `""` for absent strings,
except that an absent `recommended_career` defaults to `"Unknown"` and an
absent `estimated_new_ats_score` defaults to `ats_score_before + 10`; in
particular an absent quality `overall_score` yields 0 in
`quality_report.overall_score`. -/
theorem analyze_response_defaults (il ol : String) (p : ParsedData)
    (sl : List (String × String)) (q : QualityData) (a : ATSData)
    (sk : Option (List String)) (c : CareerData) (r : RewrittenData) :
    (q.overall_score = none →
      (analyze_response il ol p sl q a sk c r).quality_report.overall_score = 0) ∧
    (q.strengths = none →
      (analyze_response il ol p sl q a sk c r).quality_report.strengths = []) ∧
    (q.weaknesses = none →
      (analyze_response il ol p sl q a sk c r).quality_report.weaknesses = []) ∧
    (q.suggestions = none →
      (analyze_response il ol p sl q a sk c r).quality_report.suggestions = []) ∧
    (r.rewritten_summary = none →
      (analyze_response il ol p sl q a sk c r).final_cv.summary = "") ∧
    (r.rewritten_experience = none →
      (analyze_response il ol p sl q a sk c r).final_cv.experience = []) ∧
    (c.confidence = none →
      (analyze_response il ol p sl q a sk c r).career_recommendation.confidence = 0) ∧
    (c.reasoning = none →
      (analyze_response il ol p sl q a sk c r).career_recommendation.reasoning = "") ∧
    (c.alternative_careers = none →
      (analyze_response il ol p sl q a sk c r).career_recommendation.alternative_careers = []) ∧
    (c.recommended_career = none →
      (analyze_response il ol p sl q a sk c r).career_recommendation.recommended_career =
        "Unknown") ∧
    (r.estimated_new_ats_score = none →
      (analyze_response il ol p sl q a sk c r).improvements_summary.ats_score_after =
        (analyze_response il ol p sl q a sk c r).improvements_summary.ats_score_before + 10) ∧
    (a.overall_score = none →
      (analyze_response il ol p sl q a sk c r).ats_compliance.overall_score = 0) := by
  refine ⟨?_, ?_, ?_, ?_, ?_, ?_, ?_, ?_, ?_, ?_, ?_, ?_⟩ <;>
    intro h <;> simp [analyze_response, h]

/-- C3 witness: with every transform field absent, the quality score defaults
to 0, the summary to the empty string and the recommended career to
`"Unknown"`. -/
theorem analyze_response_defaults_witness :
    (analyze_response "en" "de" ⟨none, none, none, none, none, none, none, none, none⟩
      [] ⟨none, none, none, none⟩ ⟨none, none, none, none, none⟩ none
      ⟨none, none, none, none⟩
      ⟨none, none, none⟩).quality_report.overall_score = 0 ∧
    (analyze_response "en" "de" ⟨none, none, none, none, none, none, none, none, none⟩
      [] ⟨none, none, none, none⟩ ⟨none, none, none, none, none⟩ none
      ⟨none, none, none, none⟩
      ⟨none, none, none⟩).final_cv.summary = "" ∧
    (analyze_response "en" "de" ⟨none, none, none, none, none, none, none, none, none⟩
      [] ⟨none, none, none, none⟩ ⟨none, none, none, none, none⟩ none
      ⟨none, none, none, none⟩
      ⟨none, none, none⟩).career_recommendation.recommended_career = "Unknown" := by
  obtain ⟨h1, _, _, _, h5, _, _, _, _, h10, _, _⟩ :=
    analyze_response_defaults "en" "de"
      ⟨none, none, none, none, none, none, none, none, none⟩ []
      ⟨none, none, none, none⟩ ⟨none, none, none, none, none⟩ none
      ⟨none, none, none, none⟩ ⟨none, none, none⟩
  exact ⟨h1 rfl, h5 rfl, h10 rfl⟩

/-- C7: the assembled skill list is the deduplicated union of the parsed
skills and the suggested skills — it has no duplicates and contains exactly
the skills appearing in either list. -/
theorem combined_skills_union (il ol : String) (p : ParsedData)
    (sl : List (String × String)) (q : QualityData) (a : ATSData)
    (sk : Option (List String)) (c : CareerData) (r : RewrittenData)
    (orig sugg : List String) (hp : p.skills = some orig) (hs : sk = some sugg) :
    ((analyze_response il ol p sl q a sk c r).final_cv.skills).Nodup ∧
    ∀ x, x ∈ (analyze_response il ol p sl q a sk c r).final_cv.skills ↔
      (x ∈ orig ∨ x ∈ sugg) := by
  constructor
  · simp [analyze_response, combined_skills, hp, hs, List.nodup_dedup]
  · intro x
    simp [analyze_response, combined_skills, hp, hs, List.mem_dedup, List.mem_append]

/-- C7 witness: originals `["Python","SQL"]` and suggestions
`["SQL","Docker"]` give a duplicate-free list containing exactly Python, SQL
and Docker. -/
theorem combined_skills_union_witness :
    ((analyze_response "en" "de"
      ⟨none, none, none, none, some ["Python", "SQL"], none, none, none, none⟩ []
      ⟨none, none, none, none⟩ ⟨none, none, none, none, none⟩
      (some ["SQL", "Docker"]) ⟨none, none, none, none⟩
      ⟨none, none, none⟩).final_cv.skills).Nodup ∧
    ("Python" ∈ (analyze_response "en" "de"
      ⟨none, none, none, none, some ["Python", "SQL"], none, none, none, none⟩ []
      ⟨none, none, none, none⟩ ⟨none, none, none, none, none⟩
      (some ["SQL", "Docker"]) ⟨none, none, none, none⟩
      ⟨none, none, none⟩).final_cv.skills ↔
      ("Python" ∈ ["Python", "SQL"] ∨ "Python" ∈ ["SQL", "Docker"])) := by
  have h := combined_skills_union "en" "de"
    ⟨none, none, none, none, some ["Python", "SQL"], none, none, none, none⟩ []
    ⟨none, none, none, none⟩ ⟨none, none, none, none, none⟩
    (some ["SQL", "Docker"]) ⟨none, none, none, none⟩ ⟨none, none, none⟩
    ["Python", "SQL"] ["SQL", "Docker"] rfl rfl
  exact ⟨h.1, h.2 "Python"⟩



theorem processLinks_eq : ∀ items : List LinkSpec,
    processLinks items =
      match List.find? linkFails items with
      | some spec => PyResult.error ⟨400, spec.errMsg⟩
      | none => PyResult.ok (okMap items)
  | [] => rfl
  | l :: rest => by
    have ih := processLinks_eq rest
    by_cases hs : isSupplied l = true
    · by_cases hv : l.valid (pyLower l.url) = true
      · have hf : linkFails l = false := by simp [linkFails, hs, hv]
        rw [List.find?_cons_of_neg _ (by simp [hf])]
        simp only [processLinks, hs, hv, if_true, ih]
        cases hfr : List.find? linkFails rest with
        | none => simp [hfr, okMap, hs]
        | some spec => simp [hfr]
      · have hf : linkFails l = true := by simp [linkFails, hs, hv]
        rw [List.find?_cons_of_pos _ hf]
        simp [processLinks, hs, hv]
    · have hf : linkFails l = false := by simp [linkFails, hs]
      rw [List.find?_cons_of_neg _ (by simp [hf])]
      simp only [processLinks, hs, if_false, ih, okMap]
      cases hfr : List.find? linkFails rest with
      | none => simp [hfr, okMap, hs]
      | some spec => simp [hfr]

theorem processLinks_ok_iff (items : List LinkSpec) (m : List (String × String)) :
    processLinks items = PyResult.ok m ↔
      (List.find? linkFails items = none ∧ m = okMap items) := by
  rw [processLinks_eq]
  cases hfr : List.find? linkFails items with
  | none => simp [eq_comm]
  | some spec => simp

theorem processLinks_error_iff (items : List LinkSpec) (e : HTTPError) :
    processLinks items = PyResult.error e ↔
      ∃ spec, List.find? linkFails items = some spec ∧ e = ⟨400, spec.errMsg⟩ := by
  rw [processLinks_eq]
  cases hfr : List.find? linkFails items with
  | none => simp
  | some spec => simp [eq_comm]

theorem okMap_lookup (p : String) : ∀ items : List LinkSpec,
    List.lookup p (okMap items) =
      Option.map (fun spec => pyStrip spec.url)
        (List.find? (fun spec => isSupplied spec && (p == spec.platform)) items)
  | [] => rfl
  | l :: rest => by
    have ih := okMap_lookup p rest
    by_cases hs : isSupplied l = true
    · by_cases hp : (p == l.platform) = true
      · rw [List.find?_cons_of_pos _ (by simp [hs, hp])]
        simp [okMap, hs, List.lookup, hp]
      · rw [List.find?_cons_of_neg _ (by simp [hp])]
        simp [okMap, hs, List.lookup, hp, ih]
    · rw [List.find?_cons_of_neg _ (by simp [hs])]
      simp [okMap, hs, ih]


/-- C8 counterexample: `"https://notgithub.com/abc"` is accepted for the
code-hosting platform, not rejected — the validation is substring
containment and `"notgithub.com"` contains `"github.com"`. -/
theorem social_links_notgithub_accepted :
    validate_social_links "https://notgithub.com/abc" "" "" "" "" "" "" =
      PyResult.ok [("github", "https://notgithub.com/abc")] := by decide

/-- C8 (amended): a supplied valid link contributes its trimmed value under
its platform key and a blank field contributes nothing; when every supplied
link passes, validation succeeds; on failure the error is HTTP 400 with the
failing platform's message (naming the platform and expected substring), the
first failing platform in source order determining it; a supplied GitHub URL
not containing `github.com` is rejected; `"https://github.com/abc"` is
accepted while `"https://example.com/abc"` is rejected — but
`"https://notgithub.com/abc"` is accepted, since the test is substring
containment. -/
theorem social_links_validation (g l k pf so md tw : String) :
    (∀ m, validate_social_links g l k pf so md tw = PyResult.ok m →
      List.lookup "github" m =
        (if (g != "" && pyStrip g != "") = true then some (pyStrip g) else none) ∧
      List.lookup "linkedin" m =
        (if (l != "" && pyStrip l != "") = true then some (pyStrip l) else none) ∧
      List.lookup "kaggle" m =
        (if (k != "" && pyStrip k != "") = true then some (pyStrip k) else none) ∧
      List.lookup "portfolio" m =
        (if (pf != "" && pyStrip pf != "") = true then some (pyStrip pf) else none) ∧
      List.lookup "stackoverflow" m =
        (if (so != "" && pyStrip so != "") = true then some (pyStrip so) else none) ∧
      List.lookup "medium" m =
        (if (md != "" && pyStrip md != "") = true then some (pyStrip md) else none) ∧
      List.lookup "twitter" m =
        (if (tw != "" && pyStrip tw != "") = true then some (pyStrip tw) else none)) ∧
    (∀ e, validate_social_links g l k pf so md tw = PyResult.error e →
      ∃ spec, spec ∈ socialLinkSpecs g l k pf so md tw ∧ linkFails spec = true ∧
        e = ⟨400, spec.errMsg⟩) ∧
    ((∀ spec ∈ socialLinkSpecs g l k pf so md tw, linkFails spec = false) →
      validate_social_links g l k pf so md tw =
        PyResult.ok (okMap (socialLinkSpecs g l k pf so md tw))) ∧
    ((g != "" && pyStrip g != "") = true →
      strContains (pyLower g) "github.com" = false →
      validate_social_links g l k pf so md tw =
        PyResult.error ⟨400, "Invalid GitHub URL. Must contain 'github.com'"⟩) ∧
    validate_social_links "https://github.com/abc" "" "" "" "" "" "" =
      PyResult.ok [("github", "https://github.com/abc")] ∧
    validate_social_links "https://example.com/abc" "" "" "" "" "" "" =
      PyResult.error ⟨400, "Invalid GitHub URL. Must contain 'github.com'"⟩ := by
  refine ⟨?_, ?_, ?_, ?_, by decide, by decide⟩
  · intro m hm
    rw [validate_social_links, processLinks_ok_iff] at hm
    obtain ⟨hfind, rfl⟩ := hm
    refine ⟨?_, ?_, ?_, ?_, ?_, ?_, ?_⟩ <;> rw [okMap_lookup]
    · by_cases hs : (g != "" && pyStrip g != "") = true
      · simp +decide [socialLinkSpecs, List.find?, isSupplied, hs]
      · simp +decide [socialLinkSpecs, List.find?, isSupplied, hs]
    · by_cases hs : (l != "" && pyStrip l != "") = true
      · simp +decide [socialLinkSpecs, List.find?, isSupplied, hs]
      · simp +decide [socialLinkSpecs, List.find?, isSupplied, hs]
    · by_cases hs : (k != "" && pyStrip k != "") = true
      · simp +decide [socialLinkSpecs, List.find?, isSupplied, hs]
      · simp +decide [socialLinkSpecs, List.find?, isSupplied, hs]
    · by_cases hs : (pf != "" && pyStrip pf != "") = true
      · simp +decide [socialLinkSpecs, List.find?, isSupplied, hs]
      · simp +decide [socialLinkSpecs, List.find?, isSupplied, hs]
    · by_cases hs : (so != "" && pyStrip so != "") = true
      · simp +decide [socialLinkSpecs, List.find?, isSupplied, hs]
      · simp +decide [socialLinkSpecs, List.find?, isSupplied, hs]
    · by_cases hs : (md != "" && pyStrip md != "") = true
      · simp +decide [socialLinkSpecs, List.find?, isSupplied, hs]
      · simp +decide [socialLinkSpecs, List.find?, isSupplied, hs]
    · by_cases hs : (tw != "" && pyStrip tw != "") = true
      · simp +decide [socialLinkSpecs, List.find?, isSupplied, hs]
      · simp +decide [socialLinkSpecs, List.find?, isSupplied, hs]
  · intro e he
    rw [validate_social_links, processLinks_error_iff] at he
    obtain ⟨spec, hfind, he⟩ := he
    exact ⟨spec, List.mem_of_find?_eq_some hfind, List.find?_some hfind, he⟩
  · intro hall
    exact (processLinks_ok_iff _ _).mpr
      ⟨List.find?_eq_none.mpr (fun spec hspec => by simp [hall spec hspec]), rfl⟩
  · intro hsup hval
    rw [validate_social_links, processLinks_eq, socialLinkSpecs,
      List.find?_cons_of_pos _ (by simp [linkFails, isSupplied, hsup, hval])]

/-- C8 witness: the rejection branch applied to the concrete GitHub URL
`https://example.com/abc`, which lacks the `github.com` substring. -/
theorem social_links_validation_witness :
    validate_social_links "https://example.com/abc" "x" "y" "z" "u" "v" "w" =
      PyResult.error ⟨400, "Invalid GitHub URL. Must contain 'github.com'"⟩ :=
  (social_links_validation "https://example.com/abc" "x" "y" "z" "u" "v" "w").2.2.2.1
    (by decide) (by decide)


end SmartATS
